import Mathlib

/-!
Verification development for the concurrent TCP port scanner page
(`pages/08_Port_Scanner.py`) of the repository: a shallow embedding of the
target validator, the single-port probe, the scan engine's completion loop,
the UI range gate and the pool sizing, together with theorems settling the
specification's claims about them.

Conventions of the embedding:
* Python strings are modelled as `List Char` (Lean `String.data`), machine
  integers as `Nat`/`Int` (Python integers are unbounded, and the session
  counters only ever hold small non-negative values except `total_ports`,
  which can be computed from a subtraction and is kept as `Int`).
* Code that can raise an exception is modelled with an explicit error
  branch (`Sum`/`Except`); code that catches every exception is total.
* The network is modelled as an oracle (`ProbeEnv`) giving, per port, the
  behaviour the socket layer exhibits for that probe: name-resolution
  failure, some other raised exception, or a list of per-address connect
  outcomes.
* The floating-point `progress` fraction and the float `timeout` parameter
  carried by the source are omitted: they are passed through unchanged and
  no claim concerns them.
-/

/-! ## Character classes and string splitting

`Char.isDigit`, `Char.isAlpha` in Lean match Python's ASCII checks used by
`ipaddress` (`octet.isascii() and octet.isdigit()`) and by the regex classes
`[0-9]`, `[a-zA-Z]`. -/

/-- Hexadecimal digit, as in `ipaddress._BaseV6._HEX_DIGITS`
(`0123456789ABCDEFabcdef`). -/
def isHexDigitChar (c : Char) : Bool :=
  c.isDigit || ('a' ≤ c && c ≤ 'f') || ('A' ≤ c && c ≤ 'F')

/-- Alphanumeric ASCII character, the regex class `[a-zA-Z0-9]`. -/
def isAlnumChar (c : Char) : Bool :=
  c.isAlpha || c.isDigit

/-- The regex class `[a-zA-Z0-9-]`. -/
def isAlnumHyphenChar (c : Char) : Bool :=
  isAlnumChar c || c = '-'

/-- Split a character list at every occurrence of `sep`, keeping empty
pieces, exactly like Python's `str.split(sep)`:
`"a..b".split "." = ["a", "", "b"]`, `"".split "." = [""]`. -/
def splitOnChar (sep : Char) : List Char → List (List Char)
  | [] => [[]]
  | c :: cs =>
    if c = sep then
      [] :: splitOnChar sep cs
    else
      match splitOnChar sep cs with
      | [] => [[c]]
      | p :: ps => (c :: p) :: ps

/-- Split at the first occurrence of `sep`, like Python's
`str.partition(sep)`: `none` when `sep` does not occur, otherwise the
pieces before and after its first occurrence. -/
def splitFirst (sep : Char) : List Char → Option (List Char × List Char)
  | [] => none
  | c :: cs =>
    if c = sep then
      some ([], cs)
    else
      match splitFirst sep cs with
      | none => none
      | some (a, b) => some (c :: a, b)

/-- Numeric value of a decimal digit string. -/
def decimalVal (cs : List Char) : Nat :=
  cs.foldl (fun acc c => acc * 10 + (c.toNat - '0'.toNat)) 0

/-! ## IPv4 literal parse

Embeds `ipaddress.IPv4Address(ip)` as used by `is_valid_ipv4`: the
constructor rejects a `'/'`, splits on `'.'`, demands exactly four octets,
and each octet must be a non-empty ASCII decimal string of at most three
characters, without leading zeros, of value at most 255
(`_BaseV4._parse_octet`). -/

/-- One octet, after `ipaddress._BaseV4._parse_octet`. -/
def parse_octet (o : List Char) : Bool :=
  !o.isEmpty &&
  o.all Char.isDigit &&
  decide (o.length ≤ 3) &&
  !(decide (o ≠ ['0']) && decide (o.head? = some '0')) &&
  decide (decimalVal o ≤ 255)

/-- `is_valid_ipv4` from the source: `ipaddress.IPv4Address(ip)` succeeds. -/
def is_valid_ipv4 (cs : List Char) : Bool :=
  !cs.contains '/' &&
  (let parts := splitOnChar '.' cs
   decide (parts.length = 4) && parts.all parse_octet)

/-! ## IPv6 literal parse

Embeds `ipaddress.IPv6Address(ip)` as used by `is_valid_ipv6`: the
constructor rejects a `'/'`, strips an optional non-empty `%scope` suffix
(which must itself contain no `'%'`), then `_BaseV6._ip_int_from_string`
splits on `':'`, demands at least three parts, converts an IPv4-style last
part into two hextet parts, allows at most nine parts, and resolves the
single permitted `'::'` compression before parsing every remaining part as
a hextet of one to four hexadecimal digits. -/

/-- One hextet, after `ipaddress._BaseV6._parse_hextet`: only hex digits,
at most four of them, and non-empty (`int('', 16)` raises). -/
def parse_hextet (h : List Char) : Bool :=
  h.all isHexDigitChar && decide (h.length ≤ 4) && !h.isEmpty

/-- The structural `'::'` handling of `_ip_int_from_string`, applied to the
colon-separated parts (after any IPv4 tail has been replaced by two hextet
parts).  `skip_index` is the unique empty interior part, when present. -/
def ipv6PartsOk (parts : List (List Char)) : Bool :=
  decide (parts.length ≤ 9) &&
  (let interiorEmpties :=
     (List.range parts.length).filter fun i =>
       decide (1 ≤ i) && decide (i + 1 < parts.length) &&
       decide (parts.getD i ['x'] = [])
   match interiorEmpties with
   | [] =>
     -- no '::': exactly eight parts, all of them hextets (an empty first or
     -- last part fails `parse_hextet`, matching the explicit raises)
     decide (parts.length = 8) && parts.all parse_hextet
   | [i] =>
     -- one '::' at index i
     let lo0 := parts.length - i - 1
     let hiOk : Bool := if parts.headD ['x'] = [] then decide (i = 1) else true
     let hi := if parts.headD ['x'] = [] then 0 else i
     let loOk : Bool := if parts.getLastD ['x'] = [] then decide (lo0 = 1) else true
     let lo := if parts.getLastD ['x'] = [] then 0 else lo0
     hiOk && loOk && decide (hi + lo ≤ 7) &&
     (parts.take hi).all parse_hextet &&
     (parts.drop (parts.length - lo)).all parse_hextet
   | _ => false)

/-- `is_valid_ipv6` from the source: `ipaddress.IPv6Address(ip)` succeeds. -/
def is_valid_ipv6 (cs : List Char) : Bool :=
  !cs.contains '/' &&
  (let (addr, scopeOk) :=
     match splitFirst '%' cs with
     | none => (cs, true)
     | some (a, sc) => (a, !sc.isEmpty && !sc.contains '%')
   scopeOk && !addr.isEmpty &&
   (let parts := splitOnChar ':' addr
    decide (3 ≤ parts.length) &&
    match parts.getLast? with
    | none => false
    | some last =>
      if last.contains '.' then
        -- IPv4-style suffix: must parse as a strict IPv4 literal and is
        -- then replaced by two (always valid) hextet parts
        is_valid_ipv4 last && ipv6PartsOk (parts.dropLast ++ [['0'], ['0']])
      else
        ipv6PartsOk parts))

/-! ## Domain-name grammar

`is_valid_domain` applies
`re.compile(r"^(?:[a-zA-Z0-9](?:[a-zA-Z0-9-]{0,61}[a-zA-Z0-9])?\.)+[a-zA-Z]{2,}$").match`
after a length bound of 255.  Since `'.'` belongs to none of the character
classes, a match decomposes the string uniquely at its dots: every part but
the last must match the label piece and the last part the top piece.  The
`$` anchor of `re.match` also matches just before a single trailing
newline, so the pattern accepts `s` exactly when the dot-decomposition
check accepts `s` itself or accepts `s` minus a trailing `'\n'`. -/

/-- The label piece `[a-zA-Z0-9](?:[a-zA-Z0-9-]{0,61}[a-zA-Z0-9])?`: a
leading alphanumeric, optionally followed by up to 61 alphanumeric-or-
hyphen characters and a final alphanumeric. -/
def labelPiece (cs : List Char) : Bool :=
  match cs with
  | [] => false
  | c :: rest =>
    isAlnumChar c &&
    (rest.isEmpty ||
      (decide (rest.length ≤ 62) &&
       rest.dropLast.all isAlnumHyphenChar &&
       (match rest.getLast? with
        | some d => isAlnumChar d
        | none => false)))

/-- The top-label piece `[a-zA-Z]{2,}`. -/
def topPiece (cs : List Char) : Bool :=
  decide (2 ≤ cs.length) && cs.all Char.isAlpha

/-- Whole-string match of the domain pattern body against the
dot-decomposition, with a given label matcher. -/
def domainCoreWith (lab : List Char → Bool) (cs : List Char) : Bool :=
  let parts := splitOnChar '.' cs
  decide (2 ≤ parts.length) &&
  parts.dropLast.all lab &&
  (match parts.getLast? with
   | some t => topPiece t
   | none => false)

/-- `is_valid_domain` from the source: length at most 255, then the anchored
regex match (tolerating one trailing newline, as `$` does). -/
def is_valid_domain (cs : List Char) : Bool :=
  if decide (255 < cs.length) then false
  else
    domainCoreWith labelPiece cs ||
    (match cs.getLast? with
     | some c => decide (c = '\n') && domainCoreWith labelPiece cs.dropLast
     | none => false)

/-! ## Target classification -/

/-- The classification returned by `validate_target` (`False` becomes
`none` at the call sites, which only test truthiness). -/
inductive TargetType
  | IPv4
  | IPv6
  | Domain
deriving DecidableEq, Repr

/-- `validate_target` from the source: IPv4 literal first, then IPv6
literal, then domain grammar, otherwise invalid. -/
def validate_target (s : String) : Option TargetType :=
  if is_valid_ipv4 s.data then some TargetType.IPv4
  else if is_valid_ipv6 s.data then some TargetType.IPv6
  else if is_valid_domain s.data then some TargetType.Domain
  else none

/-- Modelled from the spec: the domain grammar exactly as the claim words
it — dot-separated alphanumeric-and-hyphen labels, a purely alphabetic top
label of at least 2 characters, total length at most 255. -/
def claimDomainGrammar (cs : List Char) : Bool :=
  decide (cs.length ≤ 255) &&
  domainCoreWith (fun l => !l.isEmpty && l.all isAlnumHyphenChar) cs

/-- Modelled from the spec: `classify` as the claim states it, with the
claim's domain grammar in third position. -/
def classifySpec (s : String) : Option TargetType :=
  if is_valid_ipv4 s.data then some TargetType.IPv4
  else if is_valid_ipv6 s.data then some TargetType.IPv6
  else if claimDomainGrammar s.data then some TargetType.Domain
  else none

/-- The amended label grammar: 1 to 63 alphanumeric-or-hyphen characters,
beginning and ending with an alphanumeric. -/
def amendedLabel (cs : List Char) : Bool :=
  decide (1 ≤ cs.length) && decide (cs.length ≤ 63) &&
  cs.all isAlnumHyphenChar &&
  (match cs.head? with
   | some c => isAlnumChar c
   | none => false) &&
  (match cs.getLast? with
   | some c => isAlnumChar c
   | none => false)

/-- The amended domain grammar: length at most 255, amended labels, with
the match also tolerating a single trailing newline. -/
def amendedDomain (cs : List Char) : Bool :=
  if decide (255 < cs.length) then false
  else
    domainCoreWith amendedLabel cs ||
    (match cs.getLast? with
     | some c => decide (c = '\n') && domainCoreWith amendedLabel cs.dropLast
     | none => false)

/-- `classify` as amended: the domain grammar additionally bounds each
label to 63 characters with alphanumeric first and last characters, and
tolerates one trailing newline. -/
def classifyAmended (s : String) : Option TargetType :=
  if is_valid_ipv4 s.data then some TargetType.IPv4
  else if is_valid_ipv6 s.data then some TargetType.IPv6
  else if amendedDomain s.data then some TargetType.Domain
  else none

/-! ## Scanner data model

`COMMON_PORTS`, `COMMON_WEB_PORTS`, the session-state record touched by the
engine, and one result row of the `scan_results` collection (a Python dict
with keys `Port`, `Status`, `Service`). -/

/-- The static port-to-service table `COMMON_PORTS`. -/
def COMMON_PORTS : List (Nat × String) :=
  [(21, "FTP"), (22, "SSH"), (23, "Telnet"), (25, "SMTP"), (53, "DNS"),
   (80, "HTTP"), (110, "POP3"), (143, "IMAP"), (443, "HTTPS"),
   (465, "SMTPS"), (587, "SMTP (submission)"), (993, "IMAPS"),
   (995, "POP3S"), (1433, "Microsoft SQL Server"), (1521, "Oracle"),
   (3306, "MySQL"), (3389, "RDP"), (5432, "PostgreSQL"), (5900, "VNC"),
   (6379, "Redis"), (8080, "HTTP Alternate"), (8443, "HTTPS Alternate"),
   (27017, "MongoDB")]

/-- `COMMON_WEB_PORTS`. -/
def COMMON_WEB_PORTS : List Nat :=
  [80, 443, 8080, 8443, 3000, 5000, 8000, 8888]

/-- `COMMON_PORTS.get(port, default)`: exact-match lookup with a default. -/
def commonPortsGet (port : Nat) (dflt : String) : String :=
  match COMMON_PORTS.find? (fun e => e.1 = port) with
  | some e => e.2
  | none => dflt

/-- One row of `st.session_state.scan_results`. -/
structure PortResult where
  port : Nat
  status : String
  service : String
deriving DecidableEq, Repr

/-- The session-state fields the engine touches.  The floating-point
`progress` fraction is omitted (floating point; no claim concerns it). -/
structure SessionState where
  scan_results : List PortResult
  scanning : Bool
  progress_text : String
  total_ports : Int
  scanned_ports : Nat
deriving DecidableEq, Repr

/-! ## The single-port probe `scan_port`

The network is an oracle: for a probe, either `socket.getaddrinfo` raises
`socket.gaierror`, or some other exception is raised inside the `try`
block, or resolution yields a list of candidate addresses, each with a
connect outcome (`connect_ex` returning 0, `connect_ex` returning nonzero,
or `socket.error` raised and swallowed by the inner `except`). -/

/-- Outcome of one candidate address inside `scan_port`'s loop. -/
inductive ConnectOutcome
  | success
  | failure
  | sockError (msg : String)
deriving DecidableEq, Repr

/-- What the network does for one probe, as seen by `scan_port`. -/
inductive ProbeEnv
  | gaierror (msg : String)
  | otherError (msg : String)
  | addrs (outcomes : List ConnectOutcome)
deriving DecidableEq, Repr

/-- The address loop of `scan_port`: return `True` at the first address
whose `connect_ex` returns 0, skip addresses whose socket raises, and fall
through to `False`. -/
def tryAddrs : List ConnectOutcome → Bool
  | [] => false
  | ConnectOutcome.success :: _ => true
  | ConnectOutcome.failure :: rest => tryAddrs rest
  | ConnectOutcome.sockError _ :: rest => tryAddrs rest

/-- `scan_port` from the source.  It catches `socket.gaierror` and every
other `Exception` internally and returns `None` for both, so its embedding
is a total function into `Option Bool` — it never raises to its caller. -/
def scan_port (env : ProbeEnv) : Option Bool :=
  match env with
  | ProbeEnv.gaierror _ => none
  | ProbeEnv.otherError _ => none
  | ProbeEnv.addrs outcomes => some (tryAddrs outcomes)

/-! ## The completion loop shared by `perform_scan` and
`scan_specific_ports`

Futures complete in an arbitrary order (a permutation of the submitted
ports).  Because `scan_port` is total, every `future.result()` call in the
source returns a value rather than re-raising; the loop's `except` branch
is kept in the embedding (`Except.error`) and fed only `Except.ok`
values. -/

/-- The result row appended for an open port. -/
def mkOpen (port : Nat) : PortResult :=
  { port := port, status := "Open", service := commonPortsGet port "Unknown" }

/-- The body of one iteration of the `as_completed` loop: append a row for
an open port, append an error row if `future.result()` raised, then update
the progress counters and label. -/
def processCompletion (st : SessionState) (port : Nat)
    (r : Except String (Option Bool)) : SessionState :=
  let st' : SessionState :=
    match r with
    | Except.ok (some true) =>
      { st with scan_results := st.scan_results ++ [mkOpen port] }
    | Except.ok _ => st
    | Except.error e =>
      { st with scan_results :=
          st.scan_results ++
            [{ port := port, status := "Error: " ++ e, service := "N/A" }] }
  { st' with
    scanned_ports := st'.scanned_ports + 1,
    progress_text :=
      "Scanning port " ++ toString port ++ "... (" ++
        toString (st'.scanned_ports + 1) ++ "/" ++
        toString st'.total_ports ++ ")" }

/-- One completed future of port `port`: its result is
`Except.ok (scan_port ...)` because `scan_port` cannot raise. -/
def completionStep (env : Nat → ProbeEnv) (st : SessionState) (port : Nat) :
    SessionState :=
  processCompletion st port (Except.ok (scan_port (env port)))

/-- `range(start_port, end_port + 1)`. -/
def portsToScan (start_port end_port : Nat) : List Nat :=
  List.range' start_port (end_port + 1 - start_port)

/-- `sorted(results, key=lambda x: x["Port"])`: a sort of the rows by
ascending port number.  (Python's `sorted` is a stable sort; rows sharing a
port number are fully identical here — both are `mkOpen` of the port — so
every sort by port produces the same list and an insertion sort is an
extensionally faithful embedding that the kernel can evaluate.) -/
def sortResults (l : List PortResult) : List PortResult :=
  l.insertionSort (fun a b => a.port ≤ b.port)

/-- The state initialisation done by both scan functions before launching
the pool. -/
def initScan (st : SessionState) (total : Int) : SessionState :=
  { st with
    scan_results := [], scanning := true,
    total_ports := total, scanned_ports := 0 }

/-- The `finally` clause: whichever way the `try` body ended (normally, or
with an exception caught by the `except` branch, which only logs and shows
a UI error), `scanning` is reset. -/
def finalizeScan : SessionState ⊕ (String × SessionState) → SessionState
  | Sum.inl s => { s with scanning := false }
  | Sum.inr (_, s) => { s with scanning := false }

/-- The `try` body of `perform_scan`; `Sum.inr` is an exception escaping
the body, carrying the message and the session state at the raise point.
The only raise point is the `ThreadPoolExecutor` constructor, which
demands a positive worker count (the UI supplies 10 to 100). -/
def perform_scan_body (st : SessionState) (env : Nat → ProbeEnv)
    (order : List Nat) (start_port end_port max_workers : Nat) :
    SessionState ⊕ (String × SessionState) :=
  let st1 := initScan st ((end_port : Int) - (start_port : Int) + 1)
  if max_workers = 0 then
    Sum.inr ("max_workers must be greater than 0", st1)
  else
    let st2 := order.foldl (completionStep env) st1
    Sum.inl { st2 with scan_results := sortResults st2.scan_results }

/-- `perform_scan` from the source, for a completion order `order` of the
submitted futures. -/
def perform_scan (st : SessionState) (env : Nat → ProbeEnv)
    (order : List Nat) (start_port end_port max_workers : Nat) :
    SessionState :=
  finalizeScan (perform_scan_body st env order start_port end_port max_workers)

/-- The worker-pool size used by `scan_specific_ports`:
`min(50, len(ports_list))`. -/
def scan_specific_ports_pool_size (ports_list : List Nat) : Nat :=
  min 50 ports_list.length

/-- Modelled from the spec: the pool size the claim states for an explicit
port list — the configured `max_workers` clamped down to the number of
ports. -/
def specPoolSize (max_workers : Nat) (ports_list : List Nat) : Nat :=
  min max_workers ports_list.length

/-- The `try` body of `scan_specific_ports`.  Its `ThreadPoolExecutor` is
built with `min(50, len(ports_list))` workers, so an empty list makes the
constructor raise `ValueError`. -/
def scan_specific_ports_body (st : SessionState) (env : Nat → ProbeEnv)
    (order : List Nat) (ports_list : List Nat) :
    SessionState ⊕ (String × SessionState) :=
  let st1 := initScan st (ports_list.length : Int)
  if scan_specific_ports_pool_size ports_list = 0 then
    Sum.inr ("max_workers must be greater than 0", st1)
  else
    let st2 := order.foldl (completionStep env) st1
    Sum.inl { st2 with scan_results := sortResults st2.scan_results }

/-- `scan_specific_ports` from the source, for a completion order `order`
of the submitted futures. -/
def scan_specific_ports (st : SessionState) (env : Nat → ProbeEnv)
    (order : List Nat) (ports_list : List Nat) : SessionState :=
  finalizeScan (scan_specific_ports_body st env order ports_list)

/-- `Bool` test for an open probe, used to state the engine's result
characterisation. -/
def isOpenProbe (env : Nat → ProbeEnv) (p : Nat) : Bool :=
  decide (scan_port (env p) = some true)

/-! ## The UI gate of `render_ui` and the dispatch of `main` -/

/-- What `render_ui` hands back when the Scan button is clicked.  The
button is disabled while the target is empty or unclassified; a clicked
submission with `end_port < start_port` shows the range error and stays
invalid. -/
inductive UIResult
  | invalid (errMsg : Option String)
  | valid (target : String) (ttype : TargetType)
      (start_port end_port max_workers : Nat)
deriving DecidableEq, Repr

/-- The Scan-button branch of `render_ui`. -/
def render_ui_submit (target : String)
    (start_port end_port max_workers : Nat) : UIResult :=
  if target = "" then UIResult.invalid none
  else
    match validate_target target with
    | none => UIResult.invalid none
    | some tt =>
      if end_port < start_port then
        UIResult.invalid
          (some "End port must be greater than or equal to start port")
      else
        UIResult.valid target tt start_port end_port max_workers

/-- Which scan, if any, `main` launches for the submitted inputs. -/
inductive ScanAction
  | noScan
  | rangeScan (target : String) (start_port end_port max_workers : Nat)
  | specificScan (target : String) (ports : List Nat)
deriving DecidableEq, Repr

/-- The dispatch in `main`: no scan unless the inputs are valid; the
`common_web` preset scans the fixed list, anything else the range. -/
def main_action (target : String) (start_port end_port max_workers : Nat)
    (selected_port_range : String) : ScanAction :=
  match render_ui_submit target start_port end_port max_workers with
  | UIResult.invalid _ => ScanAction.noScan
  | UIResult.valid t _ s e mw =>
    if selected_port_range = "common_web" then
      ScanAction.specificScan t COMMON_WEB_PORTS
    else
      ScanAction.rangeScan t s e mw

/-! ## Concrete sanity checks -/

/-- A blank session state for concrete evaluations. -/
def st0 : SessionState :=
  { scan_results := [], scanning := false, progress_text := "",
    total_ports := 0, scanned_ports := 0 }

/-- Probe environment used in concrete checks: port 1 open, port 2 raising
a non-resolution exception, every other port cleanly closed. -/
def envMixed : Nat → ProbeEnv := fun p =>
  if p = 1 then ProbeEnv.addrs [ConnectOutcome.success]
  else if p = 2 then ProbeEnv.otherError "boom"
  else ProbeEnv.addrs [ConnectOutcome.failure]

/-! ## Helper lemmas about the completion loop -/

theorem processCompletion_scanned (st : SessionState) (port : Nat)
    (r : Except String (Option Bool)) :
    (processCompletion st port r).scanned_ports = st.scanned_ports + 1 := by
  cases r with
  | error e => rfl
  | ok v =>
    cases v with
    | none => rfl
    | some b => cases b <;> rfl

theorem processCompletion_results_ok (st : SessionState) (port : Nat)
    (v : Option Bool) :
    (processCompletion st port (Except.ok v)).scan_results =
      st.scan_results ++ (if v = some true then [mkOpen port] else []) := by
  cases v with
  | none => simp [processCompletion]
  | some b => cases b <;> simp [processCompletion]

theorem foldl_scanned (env : Nat → ProbeEnv) :
    ∀ (l : List Nat) (st : SessionState),
      (l.foldl (completionStep env) st).scanned_ports =
        st.scanned_ports + l.length
  | [], st => by simp
  | p :: l, st => by
    rw [List.foldl_cons, foldl_scanned env l, completionStep,
      processCompletion_scanned]
    simp; omega

theorem foldl_results (env : Nat → ProbeEnv) :
    ∀ (l : List Nat) (st : SessionState),
      (l.foldl (completionStep env) st).scan_results =
        st.scan_results ++ (l.filter (isOpenProbe env)).map mkOpen
  | [], st => by simp
  | p :: l, st => by
    rw [List.foldl_cons, foldl_results env l, completionStep,
      processCompletion_results_ok, List.filter_cons]
    by_cases h : scan_port (env p) = some true <;>
      simp [isOpenProbe, h]

theorem finalizeScan_scanning :
    ∀ x : SessionState ⊕ (String × SessionState),
      (finalizeScan x).scanning = false
  | Sum.inl _ => rfl
  | Sum.inr (_, _) => rfl

/-! ## Helper lemmas about sorting -/

theorem mkOpen_port (p : Nat) : (mkOpen p).port = p := rfl

theorem eq_of_port_map_eq :
    ∀ (xs ys : List PortResult),
      (∀ x ∈ xs, x = mkOpen x.port) → (∀ y ∈ ys, y = mkOpen y.port) →
      xs.map PortResult.port = ys.map PortResult.port → xs = ys
  | [], [], _, _, _ => rfl
  | [], _ :: _, _, _, h => by simp at h
  | _ :: _, [], _, _, h => by simp at h
  | x :: xs, y :: ys, hx, hy, h => by
    simp only [List.map_cons, List.cons.injEq] at h
    have hxy : x = y := by
      rw [hx x (by simp), hy y (by simp), h.1]
    rw [hxy,
      eq_of_port_map_eq xs ys (fun a ha => hx a (by simp [ha]))
        (fun a ha => hy a (by simp [ha])) h.2]

theorem sortResults_map_mkOpen {l asc : List Nat}
    (hperm : l.Perm asc) (hasc : asc.Pairwise (· < ·)) :
    sortResults (l.map mkOpen) = asc.map mkOpen := by
  haveI : IsAntisymm Nat (· < ·) :=
    ⟨fun a b h₁ h₂ => absurd h₂ (Nat.lt_asymm h₁)⟩
  haveI hTot : IsTotal PortResult (fun a b => a.port ≤ b.port) :=
    ⟨fun a b => Nat.le_total a.port b.port⟩
  haveI hTrans : IsTrans PortResult (fun a b => a.port ≤ b.port) :=
    ⟨fun _ _ _ hab hbc => Nat.le_trans hab hbc⟩
  have hout : (sortResults (l.map mkOpen)).Perm (asc.map mkOpen) :=
    (List.perm_insertionSort _ _).trans (hperm.map mkOpen)
  have hform_out : ∀ x ∈ sortResults (l.map mkOpen), x = mkOpen x.port := by
    intro x hxmem
    have : x ∈ asc.map mkOpen := hout.mem_iff.mp hxmem
    obtain ⟨p, _, hp⟩ := List.mem_map.mp this
    rw [← hp, mkOpen_port]
  have hform_asc : ∀ y ∈ asc.map mkOpen, y = mkOpen y.port := by
    intro y hymem
    obtain ⟨p, _, hp⟩ := List.mem_map.mp hymem
    rw [← hp, mkOpen_port]
  refine eq_of_port_map_eq _ _ hform_out hform_asc ?_
  have hperm_ports :
      ((sortResults (l.map mkOpen)).map PortResult.port).Perm
        ((asc.map mkOpen).map PortResult.port) := hout.map _
  have hasc_ports : (asc.map mkOpen).map PortResult.port = asc := by
    simp [List.map_map, Function.comp_def, mkOpen_port]
  have hsorted_out :
      ((sortResults (l.map mkOpen)).map PortResult.port).Pairwise (· ≤ ·) := by
    have h1 : (sortResults (l.map mkOpen)).Pairwise
        (fun a b : PortResult => a.port ≤ b.port) :=
      List.sorted_insertionSort (fun a b : PortResult => a.port ≤ b.port)
        (l.map mkOpen)
    exact List.Pairwise.map _ (fun _ _ h => h) h1
  have hnodup_asc : asc.Nodup := hasc.imp Nat.ne_of_lt
  have hnodup_out :
      ((sortResults (l.map mkOpen)).map PortResult.port).Nodup := by
    rw [show ((sortResults (l.map mkOpen)).map PortResult.port).Nodup ↔ _ from
      (hperm_ports.trans (by rw [hasc_ports])).nodup_iff]
    exact hnodup_asc
  have hstrict_out :
      ((sortResults (l.map mkOpen)).map PortResult.port).Pairwise (· < ·) :=
    (hsorted_out.and hnodup_out).imp
      (fun h => lt_of_le_of_ne h.1 h.2)
  refine List.eq_of_perm_of_sorted
    (hperm_ports.trans (by rw [hasc_ports])) hstrict_out ?_ |>.trans
    hasc_ports.symm
  exact hasc

theorem portsToScan_pairwise (s e : Nat) :
    (portsToScan s e).Pairwise (· < ·) :=
  List.pairwise_lt_range' s (e + 1 - s)

/-! ## Characterisation of `perform_scan` -/

theorem perform_scan_results (st : SessionState) (env : Nat → ProbeEnv)
    (order : List Nat) (s e mw : Nat) (hmw : mw ≠ 0)
    (hperm : order.Perm (portsToScan s e)) :
    (perform_scan st env order s e mw).scan_results =
      ((portsToScan s e).filter (isOpenProbe env)).map mkOpen := by
  unfold perform_scan perform_scan_body
  rw [if_neg hmw]
  show sortResults
      ((order.foldl (completionStep env)
        (initScan st ((e : Int) - (s : Int) + 1))).scan_results) = _
  rw [foldl_results]
  have hinit : (initScan st ((e : Int) - (s : Int) + 1)).scan_results = [] := rfl
  rw [hinit, List.nil_append]
  exact sortResults_map_mkOpen (hperm.filter _)
    ((portsToScan_pairwise s e).filter _)

theorem perform_scan_scanned (st : SessionState) (env : Nat → ProbeEnv)
    (order : List Nat) (s e mw : Nat) (hmw : mw ≠ 0) :
    (perform_scan st env order s e mw).scanned_ports = order.length := by
  unfold perform_scan perform_scan_body
  rw [if_neg hmw]
  show (order.foldl (completionStep env)
    (initScan st ((e : Int) - (s : Int) + 1))).scanned_ports = _
  rw [foldl_scanned]
  simp [initScan]

/-! ## Equivalence of the regex label piece with its amended description -/

theorem labelPiece_eq_amendedLabel (cs : List Char) :
    labelPiece cs = amendedLabel cs := by
  cases cs with
  | nil => rfl
  | cons c rest =>
    rcases List.eq_nil_or_concat rest with h | ⟨mid, d, h⟩
    · subst h
      cases hc : isAlnumChar c <;>
        simp [labelPiece, amendedLabel, isAlnumHyphenChar, hc]
    · rw [List.concat_eq_append] at h
      subst h
      have hlast1 : (mid ++ [d]).getLast? = some d := List.getLast?_concat _
      have hlast2 : (c :: (mid ++ [d])).getLast? = some d := by
        rw [← List.cons_append, List.getLast?_concat]
      cases hc : isAlnumChar c with
      | false =>
        simp [labelPiece, amendedLabel, isAlnumHyphenChar, hc, hlast2,
          List.head?_cons]
      | true =>
        cases hd : isAlnumChar d with
        | false =>
          simp [labelPiece, amendedLabel, isAlnumHyphenChar, hc, hd,
            hlast1, hlast2, List.dropLast_concat, List.all_append]
        | true =>
          rw [Bool.eq_iff_iff]
          simp [labelPiece, amendedLabel, isAlnumHyphenChar, hc, hd,
            hlast1, hlast2, List.dropLast_concat, List.all_append]

theorem is_valid_domain_eq_amendedDomain (cs : List Char) :
    is_valid_domain cs = amendedDomain cs := by
  have h : labelPiece = amendedLabel := funext labelPiece_eq_amendedLabel
  unfold is_valid_domain amendedDomain
  rw [h]

example : validate_target "192.168.0.1" = some TargetType.IPv4 := by decide
example : validate_target "256.1.1.1" = none := by decide
example : validate_target "01.1.1.1" = none := by decide
example : validate_target "::1" = some TargetType.IPv6 := by decide
example : validate_target "fe80::1%eth0" = some TargetType.IPv6 := by decide
example : validate_target "1::2::3" = none := by decide
example : validate_target "example.com" = some TargetType.Domain := by decide
example : validate_target "a-.com" = none := by decide
example : validate_target "a.com\n" = some TargetType.Domain := by decide
example : validate_target "not a target!!" = none := by decide

/-! ## Membership lemmas used for the open-only property -/

theorem mem_sortResults {r : PortResult} {l : List PortResult} :
    r ∈ sortResults l ↔ r ∈ l :=
  (List.perm_insertionSort _ l).mem_iff

theorem perform_scan_mem_open (st : SessionState) (env : Nat → ProbeEnv)
    (order : List Nat) (s e mw : Nat) :
    ∀ r ∈ (perform_scan st env order s e mw).scan_results,
      r.status = "Open" := by
  intro r hr
  unfold perform_scan perform_scan_body at hr
  by_cases hmw : mw = 0
  · rw [if_pos hmw] at hr
    have : r ∈ ([] : List PortResult) := hr
    simp at this
  · rw [if_neg hmw] at hr
    have h2 : r ∈ sortResults
        ((order.foldl (completionStep env)
          (initScan st ((e : Int) - (s : Int) + 1))).scan_results) := hr
    rw [mem_sortResults, foldl_results] at h2
    have h0 : (initScan st ((e : Int) - (s : Int) + 1)).scan_results = [] := rfl
    rw [h0, List.nil_append] at h2
    obtain ⟨p, _, hp⟩ := List.mem_map.mp h2
    rw [← hp]
    rfl

theorem scan_specific_ports_mem_open (st : SessionState)
    (env : Nat → ProbeEnv) (order ports_list : List Nat) :
    ∀ r ∈ (scan_specific_ports st env order ports_list).scan_results,
      r.status = "Open" := by
  intro r hr
  unfold scan_specific_ports scan_specific_ports_body at hr
  by_cases hp0 : scan_specific_ports_pool_size ports_list = 0
  · rw [if_pos hp0] at hr
    have : r ∈ ([] : List PortResult) := hr
    simp at this
  · rw [if_neg hp0] at hr
    have h2 : r ∈ sortResults
        ((order.foldl (completionStep env)
          (initScan st (ports_list.length : Int))).scan_results) := hr
    rw [mem_sortResults, foldl_results] at h2
    have h0 : (initScan st (ports_list.length : Int)).scan_results = [] := rfl
    rw [h0, List.nil_append] at h2
    obtain ⟨p, _, hp⟩ := List.mem_map.mp h2
    rw [← hp]
    rfl

/-! ## Claims -/

/-- Claim C1, counterexample: scanning ports 1 to 3 of a target whose name
resolution fails for every probe yields an *empty* result collection — no
error-tagged `PortResult` is recorded for any of the three requested
ports, contradicting the claim that one is recorded for every port. -/
theorem C1_counterexample :
    portsToScan 1 3 = [1, 2, 3] ∧
    (perform_scan st0
      (fun _ => ProbeEnv.gaierror "nodename nor servname provided")
      [1, 2, 3] 1 3 50).scan_results = [] := by
  decide

/-- Claim C1 as amended: for every scan whose target fails name
resolution, every probe returns the error value `none` rather than
raising, the job runs to completion without crashing (every requested
port is counted and `scanning` is reset), but the engine records *no*
`PortResult` for any port — the resolution failure is indistinguishable
from closed in the result collection instead of being surfaced. -/
theorem C1_resolution_failure (st : SessionState) (env : Nat → ProbeEnv)
    (order : List Nat) (s e mw : Nat) (msgs : Nat → String)
    (hmw : mw ≠ 0) (hperm : order.Perm (portsToScan s e))
    (henv : ∀ p, env p = ProbeEnv.gaierror (msgs p)) :
    (∀ p, scan_port (env p) = none) ∧
    (perform_scan st env order s e mw).scan_results = [] ∧
    (perform_scan st env order s e mw).scanning = false ∧
    (perform_scan st env order s e mw).scanned_ports = order.length := by
  have hnone : ∀ p, scan_port (env p) = none := fun p => by rw [henv p]; rfl
  refine ⟨hnone, ?_, finalizeScan_scanning _,
    perform_scan_scanned st env order s e mw hmw⟩
  rw [perform_scan_results st env order s e mw hmw hperm]
  have hfil : (portsToScan s e).filter (isOpenProbe env) = [] := by
    rw [List.filter_eq_nil_iff]
    intro p _
    simp [isOpenProbe, hnone p]
  rw [hfil]
  rfl

/-- Witness for C1's amended theorem at a concrete resolution-failing
scan. -/
theorem C1_witness :
    (perform_scan st0 (fun _ => ProbeEnv.gaierror "err") [1, 2] 1 2 50).scan_results = [] :=
  (C1_resolution_failure st0 (fun _ => ProbeEnv.gaierror "err") [1, 2] 1 2
    50 (fun _ => "err") (by decide) (by decide) (fun _ => rfl)).2.1

/-- Claim C2, counterexample: port 2's probe raises a non-resolution
exception (`"boom"`), port 1 is open and port 3 closed.  The scan keeps
running (port 1, completing after port 2, is still recorded), but *no*
error-tagged row carrying the exception text is recorded for port 2 —
the result collection holds only the open row, contradicting the claim. -/
theorem C2_counterexample :
    (perform_scan st0 envMixed [2, 1, 3] 1 3 50).scan_results =
      [{ port := 1, status := "Open", service := "Unknown" }] ∧
    (perform_scan st0 envMixed [2, 1, 3] 1 3 50).scanned_ports = 3 := by
  decide

/-- Claim C2 as amended: an exception other than resolution failure during
a single port's connect attempt is captured inside `scan_port` and
converted to the error value `none`; *no* `PortResult` is recorded for
that port (the completion loop's error branch never fires), while the
remaining ports of the scan still run to completion, open ones being
recorded as usual. -/
theorem C2_probe_error (st : SessionState) (env : Nat → ProbeEnv)
    (order : List Nat) (s e mw p0 : Nat) (msg : String)
    (hmw : mw ≠ 0) (hperm : order.Perm (portsToScan s e))
    (hp0 : env p0 = ProbeEnv.otherError msg) :
    scan_port (env p0) = none ∧
    (∀ r ∈ (perform_scan st env order s e mw).scan_results, r.port ≠ p0) ∧
    (perform_scan st env order s e mw).scan_results =
      ((portsToScan s e).filter (isOpenProbe env)).map mkOpen ∧
    (perform_scan st env order s e mw).scanned_ports = order.length := by
  have hnone : scan_port (env p0) = none := by rw [hp0]; rfl
  have hres := perform_scan_results st env order s e mw hmw hperm
  refine ⟨hnone, ?_, hres, perform_scan_scanned st env order s e mw hmw⟩
  intro r hr
  rw [hres] at hr
  obtain ⟨p, hpmem, hp⟩ := List.mem_map.mp hr
  have hopen : isOpenProbe env p = true := List.of_mem_filter hpmem
  intro hcontra
  rw [← hp, mkOpen_port] at hcontra
  subst hcontra
  simp [isOpenProbe, hnone] at hopen

/-- Witness for C2's amended theorem at the concrete mixed environment. -/
theorem C2_witness : scan_port (envMixed 2) = none :=
  (C2_probe_error st0 envMixed [2, 1, 3] 1 3 50 2 "boom" (by decide)
    (by decide) (by decide)).1

/-- Claim C3: for every completed range scan, whatever the completion
order, the final result collection is exactly one `Open` row per open
port, with the service looked up exact-match from `COMMON_PORTS`
(default `"Unknown"`), no entry for any clean-closed port, listed in
ascending port order (so no duplicates and no overwrites — the right-hand
side maps each open port of the ascending range to its single row, and
does not depend on `order`). -/
theorem C3_result_collection (st : SessionState) (env : Nat → ProbeEnv)
    (order : List Nat) (s e mw : Nat)
    (hmw : mw ≠ 0) (hperm : order.Perm (portsToScan s e)) :
    (perform_scan st env order s e mw).scan_results =
      ((portsToScan s e).filter (isOpenProbe env)).map mkOpen ∧
    (perform_scan st env order s e mw).scan_results.Pairwise
      (fun a b => a.port < b.port) := by
  have hres := perform_scan_results st env order s e mw hmw hperm
  refine ⟨hres, ?_⟩
  rw [hres]
  exact List.Pairwise.map _ (fun a b h => h)
    ((portsToScan_pairwise s e).filter _)

/-- Witness for C3 at a concrete scan completing out of submission
order. -/
theorem C3_witness :
    (perform_scan st0 envMixed [2, 1, 3] 1 3 50).scan_results =
      ((portsToScan 1 3).filter (isOpenProbe envMixed)).map mkOpen :=
  (C3_result_collection st0 envMixed [2, 1, 3] 1 3 50 (by decide)
    (by decide)).1

/-- The 64-character label followed by `".com"`. -/
def longLabelStr : String :=
  String.mk (List.replicate 64 'a' ++ ['.', 'c', 'o', 'm'])

/-- Claim C4, counterexample: the classifier does not implement the
claim's domain grammar.  `"a-.com"` (label ending in a hyphen) and a
64-character label satisfy the claim's grammar yet are rejected by the
code, while `"a.com\n"` (trailing newline) is rejected by the claim's
grammar yet accepted by the code, because the anchored regex's `$`
matches before a trailing newline. -/
theorem C4_counterexample :
    validate_target "a-.com" = none ∧
    classifySpec "a-.com" = some TargetType.Domain ∧
    validate_target longLabelStr = none ∧
    classifySpec longLabelStr = some TargetType.Domain ∧
    validate_target "a.com\n" = some TargetType.Domain ∧
    classifySpec "a.com\n" = none := by
  decide

/-- Claim C4 as amended: `classify` attempts the strict IPv4 literal
parse, else the strict IPv6 literal parse, else the domain grammar in
which each non-top label has 1 to 63 alphanumeric-or-hyphen characters
beginning and ending with an alphanumeric, the top label is purely
alphabetic with at least 2 characters, the total length is at most 255,
and the check also accepts a single trailing newline; else Invalid.  As a
pure function of its input it is deterministic and side-effect free. -/
theorem C4_classify (s : String) : validate_target s = classifyAmended s := by
  unfold validate_target classifyAmended
  rw [is_valid_domain_eq_amendedDomain]

/-- Claim C5: during a range scan the scanned-ports counter starts at 0
with `total_ports = end - start + 1` equal to the number of requested
ports, after `k` completed probes it equals `k` whatever those probes'
outcomes were (so it is monotone), it never exceeds the total, and each
further completion increments it by exactly one. -/
theorem C5_progress_counter (st : SessionState) (env : Nat → ProbeEnv)
    (order : List Nat) (s e k : Nat)
    (hse : s ≤ e) (hperm : order.Perm (portsToScan s e))
    (hk : k ≤ order.length) :
    (initScan st ((e : Int) - (s : Int) + 1)).scanned_ports = 0 ∧
    (initScan st ((e : Int) - (s : Int) + 1)).total_ports =
      (e : Int) - (s : Int) + 1 ∧
    ((portsToScan s e).length : Int) = (e : Int) - (s : Int) + 1 ∧
    ((order.take k).foldl (completionStep env)
        (initScan st ((e : Int) - (s : Int) + 1))).scanned_ports = k ∧
    (((order.take k).foldl (completionStep env)
        (initScan st ((e : Int) - (s : Int) + 1))).scanned_ports : Int) ≤
      (initScan st ((e : Int) - (s : Int) + 1)).total_ports ∧
    (k < order.length →
      ((order.take (k + 1)).foldl (completionStep env)
          (initScan st ((e : Int) - (s : Int) + 1))).scanned_ports =
        ((order.take k).foldl (completionStep env)
            (initScan st ((e : Int) - (s : Int) + 1))).scanned_ports + 1) := by
  have hlen : (portsToScan s e).length = e + 1 - s :=
    List.length_range' s 1 (e + 1 - s)
  have hol : order.length = e + 1 - s := by
    rw [hperm.length_eq, hlen]
  have hinit0 : (initScan st ((e : Int) - (s : Int) + 1)).scanned_ports = 0 :=
    rfl
  have hinitT : (initScan st ((e : Int) - (s : Int) + 1)).total_ports =
      (e : Int) - (s : Int) + 1 := rfl
  have hafter : ∀ n,
      ((order.take n).foldl (completionStep env)
        (initScan st ((e : Int) - (s : Int) + 1))).scanned_ports =
      min n order.length := by
    intro n
    rw [foldl_scanned, hinit0, List.length_take]
    omega
  refine ⟨hinit0, hinitT, ?_, ?_, ?_, ?_⟩
  · rw [hlen]; omega
  · rw [hafter]; omega
  · rw [hafter, hinitT]; omega
  · intro hklt
    rw [hafter, hafter]
    omega

/-- Witness for C5 at a concrete two-port scan after one completion. -/
theorem C5_witness :
    (([1, 2].take 1).foldl (completionStep envMixed)
        (initScan st0 ((2 : Int) - (1 : Int) + 1))).scanned_ports = 1 :=
  (C5_progress_counter st0 envMixed [1, 2] 1 2 1 (by decide) (by decide)
    (by decide)).2.2.2.1

/-- Claim C6: for every submitted port pair with `start > end`, `main`
launches no scan at all (neither the range nor the specific-list engine
runs, so no network call is made), and whenever the Scan button could
actually be clicked (non-empty, validly classified target) the submission
comes back invalid carrying exactly the range error message. -/
theorem C6_invalid_range (target : String) (s e mw : Nat) (sel : String)
    (hrange : e < s) :
    main_action target s e mw sel = ScanAction.noScan ∧
    (∀ tt, validate_target target = some tt → target ≠ "" →
      render_ui_submit target s e mw =
        UIResult.invalid
          (some "End port must be greater than or equal to start port")) := by
  have hsub : render_ui_submit target s e mw = UIResult.invalid none ∨
      render_ui_submit target s e mw =
        UIResult.invalid
          (some "End port must be greater than or equal to start port") := by
    unfold render_ui_submit
    by_cases h0 : target = ""
    · left; simp [h0]
    · cases hvt : validate_target target with
      | none => left; simp [h0, hvt]
      | some tt => right; simp [h0, hvt, hrange]
  constructor
  · rcases hsub with h | h <;> simp [main_action, h]
  · intro tt hvt h0
    unfold render_ui_submit
    simp [h0, hvt, hrange]

/-- Witness for C6 at a concrete inverted range. -/
theorem C6_witness :
    main_action "example.com" 100 10 50 "custom" = ScanAction.noScan :=
  (C6_invalid_range "example.com" 100 10 50 "custom" (by decide)).1

/-- Claim C7, counterexample: the explicit-list pool size ignores the
configured `max_workers`.  With `max_workers = 100` (inside the
configurable 10 to 100 range) and 60 ports the code builds a pool of 50,
not the claimed `min(100, 60) = 60`; with `max_workers = 10` and 40 ports
it builds 40, not the claimed `min(10, 40) = 10` — the pool can even
exceed the configured setting. -/
theorem C7_counterexample :
    scan_specific_ports_pool_size (List.range 60) = 50 ∧
    specPoolSize 100 (List.range 60) = 60 ∧
    scan_specific_ports_pool_size (List.range 40) = 40 ∧
    specPoolSize 10 (List.range 40) = 10 := by
  decide

/-- Claim C7 as amended: for a scan over an explicit port list the worker
pool is sized `min(50, number of ports)` — the fixed constant 50, not the
configured `max_workers`, clamped down to the port count — so the pool
size never exceeds the number of requested ports (and never exceeds
50). -/
theorem C7_pool_size (ports_list : List Nat) :
    scan_specific_ports_pool_size ports_list = min 50 ports_list.length ∧
    scan_specific_ports_pool_size ports_list ≤ ports_list.length ∧
    scan_specific_ports_pool_size ports_list ≤ 50 ∧
    (50 ≤ ports_list.length →
      scan_specific_ports_pool_size ports_list = 50) ∧
    (ports_list.length ≤ 50 →
      scan_specific_ports_pool_size ports_list = ports_list.length) := by
  unfold scan_specific_ports_pool_size
  refine ⟨rfl, Nat.min_le_right _ _, Nat.min_le_left _ _, ?_, ?_⟩
  · intro h; omega
  · intro h; omega

/-- Witness for C7's amended theorem at the common-web-ports list (8
ports). -/
theorem C7_witness :
    scan_specific_ports_pool_size COMMON_WEB_PORTS =
      COMMON_WEB_PORTS.length :=
  (C7_pool_size COMMON_WEB_PORTS).2.2.2.2 (by decide)

/-- Claim C8 (implicit): `scan_port` is total with the three-valued result
— `none` for resolution failure and for any other captured exception,
`some` of the address-loop verdict otherwise — and never raises to its
caller; consequently the `except` append branch of the completion loop is
unreachable and every row ever appended to the result collection, in
either scan function, has status `"Open"`. -/
theorem C8_probe_totality :
    (∀ msg, scan_port (ProbeEnv.gaierror msg) = none) ∧
    (∀ msg, scan_port (ProbeEnv.otherError msg) = none) ∧
    (∀ outcomes, scan_port (ProbeEnv.addrs outcomes) =
      some (tryAddrs outcomes)) ∧
    (∀ (st : SessionState) (env : Nat → ProbeEnv) (order : List Nat)
        (s e mw : Nat),
      ∀ r ∈ (perform_scan st env order s e mw).scan_results,
        r.status = "Open") ∧
    (∀ (st : SessionState) (env : Nat → ProbeEnv) (order ports : List Nat),
      ∀ r ∈ (scan_specific_ports st env order ports).scan_results,
        r.status = "Open") :=
  ⟨fun _ => rfl, fun _ => rfl, fun _ => rfl,
    fun st env order s e mw => perform_scan_mem_open st env order s e mw,
    fun st env order ports => scan_specific_ports_mem_open st env order ports⟩

/-- Witness for C8 at the concrete mixed scan: the one recorded row has
status `"Open"`. -/
theorem C8_witness :
    ({ port := 1, status := "Open", service := "Unknown" } : PortResult).status = "Open" :=
  C8_probe_totality.2.2.2.1 st0 envMixed [2, 1, 3] 1 3 50
    { port := 1, status := "Open", service := "Unknown" } (by decide)

/-- Claim C9 (implicit): on every exit path of `perform_scan` and
`scan_specific_ports` — the normal completion (`Sum.inl`) and the path
where the body raised and the exception was caught (`Sum.inr`) — the
`finally` clause resets the `scanning` flag to `false` before the
function returns. -/
theorem C9_scanning_reset (st : SessionState) (env : Nat → ProbeEnv)
    (order : List Nat) (s e mw : Nat) (ports : List Nat) :
    (perform_scan st env order s e mw).scanning = false ∧
    (scan_specific_ports st env order ports).scanning = false :=
  ⟨finalizeScan_scanning _, finalizeScan_scanning _⟩

/-- Claim C10 (implicit): calling `scan_specific_ports` with an empty
port list computes a pool size of `min(50, 0) = 0`, so the worker-pool
construction fails inside the `try` body; the failure is caught (the body
takes the error branch with the `ValueError` message) and the call
returns normally with an empty result collection, zero counters and the
`scanning` flag reset to `false` — no exception reaches the caller. -/
theorem C10_empty_port_list (st : SessionState) (env : Nat → ProbeEnv)
    (order : List Nat) :
    scan_specific_ports_pool_size [] = 0 ∧
    scan_specific_ports_body st env order [] =
      Sum.inr ("max_workers must be greater than 0", initScan st 0) ∧
    (scan_specific_ports st env order []).scan_results = [] ∧
    (scan_specific_ports st env order []).scanning = false ∧
    (scan_specific_ports st env order []).scanned_ports = 0 :=
  ⟨rfl, rfl, rfl, rfl, rfl⟩
